import Mathlib

/-!
Verification of the simulation core of `goose-adventure` (Rust/Bevy).
Floats are modelled as exact rationals; machine `u32` counters as `Nat`
(the code's increments treat overflow as a program error, never a wrap
that could be observed by these properties).  Entity despawns issued
through deferred commands are modelled as explicit flags/indices in the
result records of each system step.
-/

namespace Goose

/-- 2-D vector of rationals, modelling glam `Vec2`. -/
structure Vec2 where
  x : ℚ
  y : ℚ
deriving DecidableEq, Repr

/-- 3-D vector of rationals, modelling glam `Vec3` (`z` is render order). -/
structure Vec3 where
  x : ℚ
  y : ℚ
  z : ℚ
deriving DecidableEq, Repr

/-- Squared 3-D Euclidean distance; `dist a b < r` (with `0 ≤ r`) is
expressed exactly as `dist2 a b < r * r`. -/
def dist2 (a b : Vec3) : ℚ :=
  (a.x - b.x) * (a.x - b.x) + (a.y - b.y) * (a.y - b.y) + (a.z - b.z) * (a.z - b.z)

/-- Modelled from the spec: `src/src/demo/aabb.rs` is declared in
`mod.rs` but missing from the sources.  Per spec §3, an AABB stores
`center` and `half_size`; `AABB::new(center, half_size)` is the plain
constructor. -/
structure AABB where
  center : Vec2
  half_size : Vec2
deriving DecidableEq, Repr

def AABB.left (a : AABB) : ℚ := a.center.x - a.half_size.x

def AABB.right (a : AABB) : ℚ := a.center.x + a.half_size.x

def AABB.top (a : AABB) : ℚ := a.center.y + a.half_size.y

def AABB.bottom (a : AABB) : ℚ := a.center.y - a.half_size.y

/-- The minimum-magnitude choice between the positive separation `p`
and the negative separation `n` along one axis. -/
def minMag (p n : ℚ) : ℚ := if |p| ≤ |n| then p else n

/-- Modelled from the spec: `src/src/demo/aabb.rs` is missing from the
sources.  Spec §4.1: `intersection_depth(other) -> Vec2` returns, per
axis, the minimum-magnitude signed overlap needed to separate the two
boxes along that axis (the shift to apply to `self`), or `(0,0)` if
the boxes do not overlap on both axes simultaneously. -/
def AABB.get_intersection_depth (a b : AABB) : Vec2 :=
  if a.left < b.right ∧ b.left < a.right ∧ a.bottom < b.top ∧ b.bottom < a.top then
    { x := minMag (b.right - a.left) (b.left - a.right)
      y := minMag (b.top - a.bottom) (b.bottom - a.top) }
  else
    ⟨0, 0⟩

/-- Boolean overlap test as used by the collision systems:
`get_intersection_depth ≠ Vec2::ZERO`. -/
def AABB.overlapsB (a b : AABB) : Bool :=
  decide (a.get_intersection_depth b ≠ (⟨0, 0⟩ : Vec2))

/-- `MovementController` from `src/src/demo/movement.rs`. -/
structure MovementController where
  speed : ℚ
  jump_force : ℚ
  velocity : Vec2
  gravity : ℚ
  grounded : Bool
  jump_time : ℚ
  jump_timer : ℚ
  horizontal : ℚ
  gliding : Bool
  facing_right : Bool
deriving DecidableEq, Repr

/-- `impl Default for MovementController`. -/
def MovementController.default : MovementController where
  speed := 70
  jump_force := 666
  velocity := ⟨0, 0⟩
  gravity := 100
  grounded := false
  jump_time := 1
  jump_timer := 0
  horizontal := 0
  gliding := false
  facing_right := true

namespace movement

/-- One mover's state: its transform translation, transform scale
(`xy`, which fixes its AABB half-size as `scale * 16`), and its
`MovementController`. -/
structure Mover where
  pos : Vec3
  scale : Vec2
  ctrl : MovementController
deriving DecidableEq, Repr

/-- The mover's AABB as recomputed by the collision systems:
`AABB::new(translation.xy(), scale.xy() * 16.0)`. -/
def moverAABB (m : Mover) : AABB :=
  ⟨⟨m.pos.x, m.pos.y⟩, ⟨m.scale.x * 16, m.scale.y * 16⟩⟩

/-- Body of `apply_movement` (`src/src/demo/movement.rs:75-93`) for one
mover: set `velocity.x` from intent, apply gravity or glide while
airborne, clamp to terminal velocity `-1500`, then integrate. -/
def apply_movement (dt : ℚ) (m : Mover) : Mover :=
  let c := m.ctrl
  let vx := c.speed * c.horizontal
  let vy := if ¬ c.grounded then
      (if c.gliding then -c.gravity * (3 / 10) else c.velocity.y - c.gravity)
    else c.velocity.y
  let jt := if ¬ c.grounded ∧ c.gliding then c.jump_timer + dt else c.jump_timer
  let vy := max vy (-1500)
  { m with
    ctrl := { c with velocity := ⟨vx, vy⟩, jump_timer := jt }
    pos := ⟨m.pos.x + vx * dt, m.pos.y + vy * dt, m.pos.z⟩ }

/-- Loop body of `handle_collisions` (`src/src/demo/movement.rs:125-158`)
for one platform: the four cheap edge-rejection `continue`s, then
`get_intersection_depth`, the `|depth.x| <= 8` horizontal snap with
AABB/depth recomputation, then the `|depth.y| <= 24` vertical snap with
the grounded/jump-timer update.  Returns the updated mover and whether
this platform counted as a collision. -/
def resolve_platform (m : Mover) (p : AABB) : Mover × Bool :=
  let a := moverAABB m
  if a.bottom > p.top ∨ a.left ≥ p.right ∨ a.right ≤ p.left ∨ a.top < p.bottom then
    (m, false)
  else
    let d0 := a.get_intersection_depth p
    let s1 : Mover × Vec2 :=
      if |d0.x| ≤ 8 then
        let m1 : Mover :=
          { m with
            pos := ⟨m.pos.x + d0.x, m.pos.y, m.pos.z⟩
            ctrl := { m.ctrl with velocity := ⟨0, m.ctrl.velocity.y⟩ } }
        let a1 : AABB := { a with center := ⟨m1.pos.x, m1.pos.y⟩ }
        (m1, a1.get_intersection_depth p)
      else
        (m, d0)
    let m1 := s1.1
    let d1 := s1.2
    let m2 :=
      if |d1.y| ≤ 24 then
        let c1 := { m1.ctrl with velocity := ⟨m1.ctrl.velocity.x, 0⟩ }
        let c2 := if 0 < d1.y ∧ d1.y ≤ 24 then
            { c1 with grounded := true, jump_timer := 0 }
          else c1
        { m1 with pos := ⟨m1.pos.x, m1.pos.y + d1.y, m1.pos.z⟩, ctrl := c2 }
      else m1
    (m2, true)

/-- Result of the terrain-collision step for one mover. -/
structure CollisionResult where
  m : Mover
  collided : Bool
  explosion : Option Vec3
  despawned : Bool
deriving DecidableEq, Repr

/-- `handle_collisions` (`src/src/demo/movement.rs:111-171`) for one
mover: fold `resolve_platform` over all platforms; if any collided and
the mover carries the `Garlic` marker, spawn an `Explosion` (radius 60)
at its position and despawn it; if nothing collided, clear `grounded`. -/
def handle_collisions (m : Mover) (garlic : Bool) (platforms : List AABB) :
    CollisionResult :=
  let step := platforms.foldl
    (fun (acc : Mover × Bool) p =>
      let r := resolve_platform acc.1 p
      (r.1, acc.2 || r.2))
    (m, false)
  let m1 := step.1
  if step.2 then
    if garlic then
      { m := m1, collided := true, explosion := some m1.pos, despawned := true }
    else
      { m := m1, collided := true, explosion := none, despawned := false }
  else
    { m := { m1 with ctrl := { m1.ctrl with grounded := false } }
      collided := false, explosion := none, despawned := false }

/-- `n` fixed ticks of `apply_movement` with time step `dt`. -/
def apply_movement_iter (dt : ℚ) : ℕ → Mover → Mover
  | 0, m => m
  | n + 1, m => apply_movement_iter dt n (apply_movement dt m)

end movement

/-- Bevy timer mode. -/
inductive TimerMode where
  | once
  | repeating
deriving DecidableEq, Repr

/-- A Bevy `Timer`: elapsed time, total duration, and mode. -/
structure Timer where
  elapsed : ℚ
  duration : ℚ
  mode : TimerMode
deriving DecidableEq, Repr

/-- `Timer::tick(delta)` followed by `just_finished()`: returns the
updated timer and whether it finished during this tick.  A `Once` timer
saturates at its duration and fires `just_finished` only on the tick
that reaches it; a `Repeating` timer wraps its elapsed time modulo the
duration. -/
def Timer.tick (t : Timer) (dt : ℚ) : Timer × Bool :=
  match t.mode with
  | .once =>
      ({ t with elapsed := min (t.elapsed + dt) t.duration },
        decide (t.elapsed < t.duration ∧ t.duration ≤ t.elapsed + dt))
  | .repeating =>
      let e := t.elapsed + dt
      if t.duration ≤ e then
        ({ t with elapsed := e - t.duration * ↑⌊e / t.duration⌋ }, true)
      else
        ({ t with elapsed := e }, false)

/-- `Timer::reset`. -/
def Timer.reset (t : Timer) : Timer := { t with elapsed := 0 }

/-- `CurseLevel` resource (`src/src/demo/level.rs:26-30`): the
progression value and the reconciliation dirty flag (`needs_change`). -/
structure CurseLevel where
  value : ℕ
  needs_change : Bool
deriving DecidableEq, Repr

/-- `Gun` component (`src/src/demo/gun.rs:17-24`). -/
structure Gun where
  shooting_cooldown : Timer
  can_shoot : Bool
  shooting : Bool
  enabled : Bool
deriving DecidableEq, Repr

/-- Rust `f32::signum` on a non-NaN value: `1.0` for positive values
and `+0.0`, `-1.0` for negative values.  (Rationals carry no `-0.0` or
NaN; the AI inputs are differences of finite positions.) -/
def rustSignum (x : ℚ) : ℚ := if 0 ≤ x then 1 else -1

namespace gun

/-- `Bullet` component (`src/src/demo/gun.rs:55-60`). -/
structure Bullet where
  velocity : Vec2
  despawn_timer : Timer
deriving DecidableEq, Repr

/-- A bullet entity: transform translation, transform scale, `Bullet`. -/
structure BulletEnt where
  pos : Vec3
  scale : Vec2
  bullet : Bullet
deriving DecidableEq, Repr

/-- An enemy or boss as seen by the bullet-collision system: transform
translation, transform scale, and its health field. -/
structure Body where
  pos : Vec3
  scale : Vec2
  health : ℚ
deriving DecidableEq, Repr

/-- `AABB::new(translation.xy(), scale.xy() * 16.0)` for a target body. -/
def bodyAABB (b : Body) : AABB :=
  ⟨⟨b.pos.x, b.pos.y⟩, ⟨b.scale.x * 16, b.scale.y * 16⟩⟩

/-- The enemy (or boss) inner loop of `handle_collisions`
(`src/src/demo/gun.rs:139-172`): scan the list in order for the first
body whose AABB overlaps the bullet's, subtract `50.0` health from it,
and report the updated list, whether it died (`health <= 0.0`), and its
index; `none` if no body overlaps. -/
def hit_bodies (ba : AABB) : List Body → Option (List Body × Bool × ℕ)
  | [] => none
  | e :: es =>
      if (bodyAABB e).overlapsB ba then
        let hit : Body := { e with health := e.health - 50 }
        some (hit :: es, decide (hit.health ≤ 0), 0)
      else
        match hit_bodies ba es with
        | none => none
        | some (es', died, i) => some (e :: es', died, i + 1)

/-- Result of one bullet's pass through `handle_collisions`.  Despawns
are deferred commands, modelled as flags/indices. -/
structure CollisionResult where
  bullet : Bullet
  enemies : List Body
  bosses : List Body
  curse : CurseLevel
  bullet_despawned : Bool
  enemy_despawned : Option ℕ
  boss_despawned : Option ℕ
deriving DecidableEq, Repr

/-- `AABB::new(translation.xy(), scale.xy() * 16.0)` for the bullet. -/
def bulletAABB (b : BulletEnt) : AABB :=
  ⟨⟨b.pos.x, b.pos.y⟩, ⟨b.scale.x * 16, b.scale.y * 16⟩⟩

/-- `handle_collisions` (`src/src/demo/gun.rs:115-174`) for one bullet:
tick the despawn timer (expiry despawns with no other effect); else
test platforms first (despawn, no damage), then enemies (50 damage,
death adds 1 to the curse value and sets the dirty flag), then the boss
(50 damage, death adds 100), stopping at the first hit; the bullet
despawns on any hit. -/
def handle_collisions (dt : ℚ) (b : BulletEnt) (platforms : List AABB)
    (enemies bosses : List Body) (curse : CurseLevel) : CollisionResult :=
  let t := b.bullet.despawn_timer.tick dt
  let bullet' := { b.bullet with despawn_timer := t.1 }
  if t.2 then
    ⟨bullet', enemies, bosses, curse, true, none, none⟩
  else
    let ba := bulletAABB b
    if platforms.any (fun p => ba.overlapsB p) then
      ⟨bullet', enemies, bosses, curse, true, none, none⟩
    else
      match hit_bodies ba enemies with
      | some (es', died, i) =>
          ⟨bullet', es', bosses,
            (if died then ⟨curse.value + 1, true⟩ else curse), true,
            (if died then some i else none), none⟩
      | none =>
        match hit_bodies ba bosses with
        | some (bs', died, i) =>
            ⟨bullet', enemies, bs',
              (if died then ⟨curse.value + 100, true⟩ else curse), true,
              none, (if died then some i else none)⟩
        | none => ⟨bullet', enemies, bosses, curse, false, none, none⟩

end gun

namespace food

/-- `Food` component with its transform translation
(`src/src/demo/food.rs:17-21`). -/
structure Food where
  pos : Vec3
  gives_gun : Bool
deriving DecidableEq, Repr

/-- Result of the `eat` system for the single player. -/
structure EatResult where
  curse : CurseLevel
  gun : Gun
  eaten : List Bool
  bullets_spawned : ℕ
deriving DecidableEq, Repr

/-- `eat` (`src/src/demo/food.rs:23-58`): on an `E` key press, every
food within distance 64 of the player is despawned; a `gives_gun` food
additionally sets the curse value to 1 with the dirty flag, enables the
gun, resets its cooldown, and spawns one bullet.  (`dist < 64` is
expressed exactly as `dist2 < 64 * 64`.)  `eat_food` is the loop body
for one food. -/
def eat_food (player_pos : Vec3) (acc : EatResult) (f : Food) : EatResult :=
  if dist2 player_pos f.pos < 4096 then
    if f.gives_gun then
      { curse := ⟨1, true⟩,
        gun := { acc.gun with
                  enabled := true,
                  shooting_cooldown := acc.gun.shooting_cooldown.reset },
        eaten := acc.eaten ++ [true],
        bullets_spawned := acc.bullets_spawned + 1 }
    else
      { acc with eaten := acc.eaten ++ [true] }
  else
    { acc with eaten := acc.eaten ++ [false] }

def eat (e_pressed : Bool) (player_pos : Vec3) (foods : List Food)
    (gun : Gun) (curse : CurseLevel) : EatResult :=
  if ¬ e_pressed then
    ⟨curse, gun, foods.map (fun _ => false), 0⟩
  else
    foods.foldl (eat_food player_pos) ⟨curse, gun, [], 0⟩

end food

namespace level

/-- The four grass tier images selected by `curse_level_change`. -/
inductive GrassImage where
  | grass0
  | grass1
  | grass2
  | grass3
deriving DecidableEq, Repr

/-- Observable side effects of one reconciliation run. -/
inductive CurseEvent where
  | tierChanged (img : GrassImage)
  | theEnd
deriving DecidableEq, Repr

/-- The state touched by `curse_level_change`: the curse resource, the
gun cooldown durations, and the current grass image. -/
structure LevelState where
  curse : CurseLevel
  guns : List ℚ
  grass : GrassImage
deriving DecidableEq, Repr

/-- `curse_level_change` (`src/src/demo/level.rs:184-225`): return
unchanged with no events unless `needs_change`; otherwise clear the
flag, pick the grass image by the value bands `0 / 1 / 2..7 / _`, give
every gun a repeating `0.1`-second cooldown when `value >= 2`, retile
the grass, and spawn one "THE END" text per player when
`value > 100`. -/
def curse_level_change (players : ℕ) (s : LevelState) : LevelState × List CurseEvent :=
  if ¬ s.curse.needs_change then
    (s, [])
  else
    let curse' : CurseLevel := { s.curse with needs_change := false }
    let img : GrassImage :=
      if s.curse.value = 0 then .grass0
      else if s.curse.value = 1 then .grass1
      else if s.curse.value < 7 then .grass2
      else .grass3
    let guns' := if 2 ≤ s.curse.value then s.guns.map (fun _ => (1 : ℚ) / 10) else s.guns
    let ends := if 100 < s.curse.value then List.replicate players CurseEvent.theEnd else []
    (⟨curse', guns', img⟩, CurseEvent.tierChanged img :: ends)

end level

namespace player

/-- `record_shooting_input` (`src/src/demo/player.rs:139-157`) for one
gun: when enabled, the shooting flag tracks the held fire button if the
cooldown duration is at most `0.3` seconds, and the just-pressed edge
otherwise. -/
def record_shooting_input (pressed just_pressed : Bool) (g : Gun) : Gun :=
  if g.enabled then
    { g with shooting :=
        if g.shooting_cooldown.duration ≤ 3 / 10 then pressed else just_pressed }
  else g

end player

/-- A spawned garlic bomb: transform translation, transform scale, and
its `MovementController`. -/
structure GarlicSpawn where
  pos : Vec3
  scale : Vec2
  ctrl : MovementController
deriving DecidableEq, Repr

namespace enemy

/-- One enemy with its transform translation, `MovementController`, and
`Enemy` fields (`src/src/demo/enemy.rs:20-27`). -/
structure EnemyState where
  pos : Vec3
  ctrl : MovementController
  health : ℚ
  max_health : ℚ
  garlic_cooldown : Timer
  can_attack : Bool
deriving DecidableEq, Repr

/-- `update_enemies` (`src/src/demo/enemy.rs:93-146`) for one enemy
against the player: idle beyond the 1500 aggro range; otherwise face
the player, approach beyond 500, retreat inside 300, and inside the
band tick the garlic cooldown and on completion lob a garlic bomb whose
horizontal speed scales with `|diff_x| / 500 * 1111`. -/
def update_enemy (dt : ℚ) (player_x : ℚ) (e : EnemyState) :
    EnemyState × Option GarlicSpawn :=
  let range_min : ℚ := 300
  let range_max : ℚ := 500
  let aggro_range : ℚ := 1500
  let diff_x := player_x - e.pos.x
  if aggro_range < |diff_x| then
    (e, none)
  else
    let c0 := { e.ctrl with facing_right := decide (0 < diff_x), horizontal := 0 }
    let sign := rustSignum diff_x
    if range_max < |diff_x| then
      ({ e with ctrl := { c0 with horizontal := sign * 1 } }, none)
    else if |diff_x| < range_min then
      ({ e with ctrl := { c0 with horizontal := sign * (-1) } }, none)
    else
      let t := e.garlic_cooldown.tick dt
      let e' := { e with ctrl := c0, garlic_cooldown := t.1 }
      if t.2 then
        (e', some ⟨e.pos, ⟨3 / 2, 3 / 2⟩,
          { MovementController.default with
            speed := |diff_x| / range_max * 1111
            horizontal := sign
            velocity := ⟨0, 1500⟩
            gravity := 100
            grounded := false
            facing_right := decide (0 < diff_x) }⟩)
      else (e', none)

/-- A player as seen by `explode`: translation and health. -/
structure PlayerState where
  pos : Vec3
  health : ℚ
deriving DecidableEq, Repr

/-- An `Explosion` entity (`src/src/demo/enemy.rs:152-156`). -/
structure ExplosionEnt where
  pos : Vec3
  radius : ℚ
deriving DecidableEq, Repr

/-- Inner loop of `explode` for one player: every explosion within its
radius subtracts 40 health (`distance < radius` is expressed exactly as
`0 ≤ radius ∧ dist2 < radius²`); reports whether health ever dropped to
`<= 0` (the `AppExit` write). -/
def explode_hit (acc : PlayerState × Bool) (ex : ExplosionEnt) :
    PlayerState × Bool :=
  if 0 ≤ ex.radius ∧ dist2 acc.1.pos ex.pos < ex.radius * ex.radius then
    let h := acc.1.health - 40
    ({ acc.1 with health := h }, acc.2 || decide (h ≤ 0))
  else acc

def explode_player (explosions : List ExplosionEnt) (pl : PlayerState) :
    PlayerState × Bool :=
  explosions.foldl explode_hit (pl, false)

/-- The in-range test of `explode` for one player and one explosion. -/
def in_blast (pl : PlayerState) (ex : ExplosionEnt) : Bool :=
  decide (0 ≤ ex.radius ∧ dist2 pl.pos ex.pos < ex.radius * ex.radius)

/-- `explode` (`src/src/demo/enemy.rs:158-178`): for each player, damage
it by every in-range explosion and despawn every explosion; the despawn
commands are issued inside the player loop, so they happen exactly when
at least one player exists.  Returns the updated players, whether the
explosions were despawned, and whether an `AppExit` was written. -/
def explode (players : List PlayerState) (explosions : List ExplosionEnt) :
    List PlayerState × Bool × Bool :=
  let ps := players.map (explode_player explosions)
  (ps.map Prod.fst, !players.isEmpty, ps.any Prod.snd)

end enemy

namespace boss

/-- `Boss` component with its transform translation
(`src/src/demo/boss.rs:32-41`). -/
structure BossState where
  pos : Vec3
  health : ℚ
  max_health : ℚ
  speed : ℚ
  target_x : ℚ
  move_cooldown : Timer
  attacked : Bool
deriving DecidableEq, Repr

/-- `move_boss` (`src/src/demo/boss.rs:79-126`) for the boss against
the player: inactive until the curse value reaches 8; every completed
1-second cooldown clears `attacked` and retargets the player's x; move
toward `target_x` at `speed` while at least 30 away, else (if not yet
attacked this cycle) drop one garlic bomb with speed 0 and velocity
`(0, -250)`. -/
def move_boss (dt : ℚ) (curse_value : ℕ) (player_x : ℚ) (b : BossState) :
    BossState × Option GarlicSpawn :=
  if curse_value < 8 then
    (b, none)
  else
    let t := b.move_cooldown.tick dt
    let b1 :=
      if t.2 then
        { b with move_cooldown := t.1, attacked := false, target_x := player_x }
      else
        { b with move_cooldown := t.1 }
    let diff_x := b1.target_x - b1.pos.x
    let sign := rustSignum diff_x
    if 30 ≤ |diff_x| then
      ({ b1 with pos := ⟨b1.pos.x + sign * b1.speed * dt, b1.pos.y, b1.pos.z⟩ }, none)
    else if ¬ b1.attacked then
      ({ b1 with attacked := true },
        some ⟨b1.pos, ⟨3 / 2, 3 / 2⟩,
          { MovementController.default with
            speed := 0
            horizontal := sign
            velocity := ⟨0, -250⟩
            gravity := 100
            grounded := false
            facing_right := decide (0 < diff_x) }⟩)
    else (b1, none)

end boss

/-! Concrete fixtures used by witnesses and counterexamples. -/

/-- An enemy standing exactly at the player's x (zero horizontal offset). -/
def enemyZero : enemy.EnemyState :=
  ⟨⟨0, 0, 0⟩, MovementController.default, 100, 100, ⟨0, 12 / 10, .repeating⟩, true⟩

/-- An enemy in the engagement band whose garlic cooldown completes on
the next `0.2`-second tick. -/
def enemyBand : enemy.EnemyState :=
  ⟨⟨0, 0, 0⟩, MovementController.default, 100, 100, ⟨11 / 10, 12 / 10, .repeating⟩, true⟩

/-- The garlic bomb `enemyBand` lobs at a player standing at `x = 400`. -/
def enemyGarlicLob : GarlicSpawn :=
  ⟨⟨0, 0, 0⟩, ⟨3 / 2, 3 / 2⟩,
    { MovementController.default with
      speed := 4444 / 5, horizontal := 1, velocity := ⟨0, 1500⟩,
      gravity := 100, grounded := false, facing_right := true }⟩

/-- A boss already on target (`target_x = pos.x`) that has not yet
attacked this cycle. -/
def bossZero : boss.BossState :=
  ⟨⟨0, 0, 0⟩, 1200, 1200, 500, 0, ⟨0, 1, .repeating⟩, false⟩

/-- The garlic bomb `bossZero` drops. -/
def bossGarlicDrop : GarlicSpawn :=
  ⟨⟨0, 0, 0⟩, ⟨3 / 2, 3 / 2⟩,
    { MovementController.default with
      speed := 0, horizontal := 1, velocity := ⟨0, -250⟩,
      gravity := 100, grounded := false, facing_right := false }⟩

/-- A mover with `speed = 0`, as boss-dropped garlic bombs are spawned. -/
def moverSpeed0 : movement.Mover :=
  ⟨⟨5, 7, 0⟩, ⟨3 / 2, 3 / 2⟩,
    { MovementController.default with
      speed := 0, horizontal := 1, velocity := ⟨0, -250⟩ }⟩

/-- A platform the landing fixture mover sinks 2 units into. -/
def landingPlatform : AABB := ⟨⟨0, 0⟩, ⟨100, 10⟩⟩

/-- A mover that has just fallen 2 units into `landingPlatform`. -/
def landingMover : movement.Mover := ⟨⟨0, 24, 0⟩, ⟨1, 1⟩, MovementController.default⟩

/-- A live bullet at the origin (scale `0.3` as spawned). -/
def bulletAtOrigin : gun.BulletEnt :=
  ⟨⟨0, 0, 0⟩, ⟨3 / 10, 3 / 10⟩, ⟨⟨1000, 0⟩, ⟨0, 7 / 10, .once⟩⟩⟩

/-- An enemy body at the origin with 50 health, overlapping the bullet. -/
def enemyBody50 : gun.Body := ⟨⟨0, 0, 0⟩, ⟨5, 5⟩, 50⟩

/-- A body far from the origin, overlapping nothing there. -/
def farBody : gun.Body := ⟨⟨5000, 0, 0⟩, ⟨5, 5⟩, 100⟩

/-- A boss body at the origin with 40 health. -/
def bossBody40 : gun.Body := ⟨⟨0, 0, 0⟩, ⟨5, 5⟩, 40⟩

/-- A garlic bomb at the origin (spawned scale `1.5`). -/
def bombTouchingMover : movement.Mover :=
  ⟨⟨0, 0, 0⟩, ⟨3 / 2, 3 / 2⟩,
    { MovementController.default with speed := 0, horizontal := 1, velocity := ⟨0, -250⟩ }⟩

/-- A grounded mover whose AABB overlaps `bombTouchingMover`. -/
def groundedMover : movement.Mover :=
  ⟨⟨10, 0, 0⟩, ⟨2, 2⟩, { MovementController.default with grounded := true }⟩

/-! Helper lemmas. -/

/-- `curse_level_change` is the identity (with no events) when the
dirty flag is clear. -/
theorem curse_level_change_noop (n : ℕ) (s : level.LevelState)
    (h : s.curse.needs_change = false) :
    level.curse_level_change n s = (s, []) := by
  unfold level.curse_level_change
  simp [h]

/-- After any run of `curse_level_change` the dirty flag is clear. -/
theorem curse_level_change_clears (n : ℕ) (s : level.LevelState) :
    ((level.curse_level_change n s).1).curse.needs_change = false := by
  unfold level.curse_level_change
  by_cases h : s.curse.needs_change = true
  · simp [h]
  · simp at h
    simp [h]

/-- The explosion fold never moves the player and subtracts 40 health
for every explosion within range of the player's (fixed) position. -/
theorem explode_fold_spec (exs : List enemy.ExplosionEnt) :
    ∀ acc : enemy.PlayerState × Bool,
      (exs.foldl enemy.explode_hit acc).1.pos = acc.1.pos ∧
      (exs.foldl enemy.explode_hit acc).1.health =
        acc.1.health - 40 * (exs.countP (enemy.in_blast acc.1) : ℕ) := by
  induction exs with
  | nil => intro acc; simp
  | cons ex exs ih =>
      intro acc
      have hstep := ih (enemy.explode_hit acc ex)
      by_cases h : 0 ≤ ex.radius ∧ dist2 acc.1.pos ex.pos < ex.radius * ex.radius
      · have hpos : (enemy.explode_hit acc ex).1.pos = acc.1.pos := by
          unfold enemy.explode_hit; simp [h]
        have hh : (enemy.explode_hit acc ex).1.health = acc.1.health - 40 := by
          unfold enemy.explode_hit; simp [h]
        have hcount : (ex :: exs).countP (enemy.in_blast acc.1) =
            exs.countP (enemy.in_blast acc.1) + 1 := by
          rw [List.countP_cons]
          simp [enemy.in_blast, h]
        have hfun : enemy.in_blast (enemy.explode_hit acc ex).1 =
            enemy.in_blast acc.1 := by
          funext e'
          unfold enemy.in_blast
          rw [hpos]
        refine ⟨?_, ?_⟩
        · rw [List.foldl_cons, hstep.1, hpos]
        · rw [List.foldl_cons, hstep.2, hh, hfun, hcount]
          push_cast
          ring
      · have hacc : enemy.explode_hit acc ex = acc := by
          unfold enemy.explode_hit; simp [h]
        have hcount : (ex :: exs).countP (enemy.in_blast acc.1) =
            exs.countP (enemy.in_blast acc.1) := by
          rw [List.countP_cons]
          simp [enemy.in_blast, h]
        rw [List.foldl_cons, hacc, hcount]
        exact ih acc

/-- The fold inside `eat` leaves the curse resource at `(1, dirty)`
exactly when some in-range food gives the gun, and untouched otherwise. -/
theorem eat_fold_curse (ppos : Vec3) (foods : List food.Food) :
    ∀ acc : food.EatResult,
      (foods.foldl (food.eat_food ppos) acc).curse =
        (if (foods.any fun f => decide (dist2 ppos f.pos < 4096) && f.gives_gun) = true
         then ⟨1, true⟩ else acc.curse) := by
  induction foods with
  | nil => intro acc; simp
  | cons f fs ih =>
      intro acc
      rw [List.foldl_cons, ih]
      by_cases h1 : dist2 ppos f.pos < 4096
      · by_cases h2 : f.gives_gun = true
        · have hs : (food.eat_food ppos acc f).curse = ⟨1, true⟩ := by
            unfold food.eat_food
            simp [h1, h2]
          simp [List.any_cons, h1, h2, hs]
        · have hs : (food.eat_food ppos acc f).curse = acc.curse := by
            unfold food.eat_food
            simp [h1, h2]
          simp [List.any_cons, h1, h2, hs]
      · have hs : (food.eat_food ppos acc f).curse = acc.curse := by
          unfold food.eat_food
          simp [h1]
        simp [List.any_cons, h1, hs]

/-! Claim theorems. -/

/-- C1: across every operation that touches the progression state, the
curse value never decreases, with the single exception of the
reset-to-1 performed by eating a gun-giving food: the bullet-collision
step only ever adds 1 (enemy kill) or 100 (boss kill), reconciliation
never changes the value, and `eat` leaves the value unchanged unless
the `E` press consumes an in-range `gives_gun` food, in which case it
sets the value to exactly 1. -/
theorem curse_value_never_decreases :
    (∀ (dt : ℚ) (b : gun.BulletEnt) (platforms : List AABB)
        (enemies bosses : List gun.Body) (curse : CurseLevel),
      curse.value ≤ (gun.handle_collisions dt b platforms enemies bosses curse).curse.value) ∧
    (∀ (n : ℕ) (s : level.LevelState),
      ((level.curse_level_change n s).1).curse.value = s.curse.value) ∧
    (∀ (e_pressed : Bool) (ppos : Vec3) (foods : List food.Food) (g : Gun)
        (curse : CurseLevel),
      (food.eat e_pressed ppos foods g curse).curse.value =
        (if (e_pressed &&
              foods.any fun f => decide (dist2 ppos f.pos < 4096) && f.gives_gun) = true
         then 1 else curse.value)) := by
  refine ⟨?_, ?_, ?_⟩
  · intro dt b platforms enemies bosses curse
    unfold gun.handle_collisions
    dsimp only
    split
    · exact le_refl _
    · split
      · exact le_refl _
      · split
        · split
          · exact Nat.le_add_right _ _
          · exact le_refl _
        · split
          · split
            · exact Nat.le_add_right _ _
            · exact le_refl _
          · exact le_refl _
  · intro n s
    unfold level.curse_level_change
    by_cases h : s.curse.needs_change = true
    · simp [h]
    · simp at h
      simp [h]
  · intro e_pressed ppos foods g curse
    unfold food.eat
    by_cases he : e_pressed = true
    · rw [if_neg (by simp [he])]
      rw [eat_fold_curse]
      by_cases ha : (foods.any fun f =>
          decide (dist2 ppos f.pos < 4096) && f.gives_gun) = true
      · simp [he, ha]
      · simp only [Bool.not_eq_true] at ha
        simp [he, ha]
    · simp only [Bool.not_eq_true] at he
      simp [he]

/-- C5: the reconciliation step `curse_level_change` is edge-triggered
on the dirty flag: with the flag clear it changes nothing and emits no
events, and because every run clears the flag, a second consecutive run
without an intervening mutation changes nothing and emits no duplicate
tier-change or terminal event. -/
theorem curse_reconcile_edge_triggered (n : ℕ) (s : level.LevelState) :
    (s.curse.needs_change = false → level.curse_level_change n s = (s, [])) ∧
    level.curse_level_change n (level.curse_level_change n s).1 =
      ((level.curse_level_change n s).1, []) :=
  ⟨curse_level_change_noop n s,
    curse_level_change_noop n _ (curse_level_change_clears n s)⟩

/-- Witness for C5 at a concrete clean state. -/
theorem curse_reconcile_edge_triggered_witness :
    ((⟨⟨3, false⟩, [4 / 5], level.GrassImage.grass0⟩ :
        level.LevelState).curse.needs_change = false) ∧
    level.curse_level_change 1 ⟨⟨3, false⟩, [4 / 5], level.GrassImage.grass0⟩ =
      (⟨⟨3, false⟩, [4 / 5], level.GrassImage.grass0⟩, []) :=
  ⟨rfl, (curse_reconcile_edge_triggered 1 _).1 rfl⟩

/-- C9: for an enabled gun, `record_shooting_input` sets the shooting
flag from the held fire button exactly when the cooldown duration is at
most `0.3` seconds, and from the just-pressed edge otherwise; the
`value >= 2` reconciliation gives every gun a `0.1`-second cooldown,
which falls on the hold-to-fire side of the threshold while the default
`0.8`-second cooldown falls on the tap-to-fire side. -/
theorem shooting_intent_cooldown_rule (p j : Bool) (g : Gun) (n : ℕ)
    (s : level.LevelState) :
    (player.record_shooting_input p j g).shooting =
      (if g.enabled = true then
        (if g.shooting_cooldown.duration ≤ 3 / 10 then p else j)
       else g.shooting) ∧
    (level.curse_level_change n s).1.guns =
      (if s.curse.needs_change = true ∧ 2 ≤ s.curse.value then
        s.guns.map (fun _ => (1 : ℚ) / 10)
       else s.guns) ∧
    ((1 : ℚ) / 10 ≤ 3 / 10 ∧ ¬ ((4 : ℚ) / 5 ≤ 3 / 10)) := by
  refine ⟨?_, ?_, by norm_num⟩
  · unfold player.record_shooting_input
    by_cases h : g.enabled = true
    · simp [h]
    · simp [h]
  · unfold level.curse_level_change
    by_cases h : s.curse.needs_change = true
    · by_cases h2 : 2 ≤ s.curse.value
      · simp [h, h2]
      · simp [h, h2]
    · simp at h
      simp [h]

/-- C8 counterexample: the despawn commands of `explode` are issued
inside the loop over players, so with no player present an existing
explosion is NOT despawned at the end of the tick, contradicting
"despawned unconditionally ... regardless of whether ... any player
exists at all". -/
theorem explosion_despawn_no_player_cex :
    ([(⟨⟨0, 0, 0⟩, 60⟩ : enemy.ExplosionEnt)] ≠ []) ∧
    (enemy.explode [] [⟨⟨0, 0, 0⟩, 60⟩]).2.1 = false := by
  refine ⟨by simp, rfl⟩

/-- C8 amended: when the explosion-processing step runs with at least
one player present, each player loses 40 health per explosion strictly
within its radius and every existing explosion is despawned at the end
of that tick, whether or not any player was in range; with no player
present the step does nothing and despawns nothing. -/
theorem explosion_single_tick_amended (ps : List enemy.PlayerState)
    (exs : List enemy.ExplosionEnt) :
    (ps ≠ [] → (enemy.explode ps exs).2.1 = true) ∧
    (enemy.explode ps exs).2.1 = !ps.isEmpty ∧
    ((enemy.explode ps exs).1.map (fun pl => pl.health)) =
      ps.map (fun pl => pl.health - 40 * (exs.countP (enemy.in_blast pl) : ℕ)) := by
  refine ⟨?_, rfl, ?_⟩
  · intro h
    unfold enemy.explode
    simp [h]
  · unfold enemy.explode enemy.explode_player
    rw [List.map_map, List.map_map]
    refine List.map_congr_left ?_
    intro pl _
    exact (explode_fold_spec exs (pl, false)).2

/-- Witness for C8 at one player and two explosions, one in range. -/
theorem explosion_single_tick_amended_witness :
    (([(⟨⟨0, 0, 0⟩, 100⟩ : enemy.PlayerState)] : List enemy.PlayerState) ≠ []) ∧
    (enemy.explode [⟨⟨0, 0, 0⟩, 100⟩]
      [⟨⟨10, 0, 0⟩, 60⟩, ⟨⟨500, 0, 0⟩, 60⟩]).2.1 = true :=
  ⟨by simp,
    (explosion_single_tick_amended [⟨⟨0, 0, 0⟩, 100⟩]
      [⟨⟨10, 0, 0⟩, 60⟩, ⟨⟨500, 0, 0⟩, 60⟩]).1 (by simp)⟩

/-- C7 counterexample: the direction function actually used is Rust's
`f32::signum`, and at a horizontal offset of exactly zero it evaluates
to `1`, not to the neutral `0`; concretely, an enemy whose x equals the
player's x sets its movement intent to `-1` (retreat), and an on-target
boss lobs its bomb with direction `1`. -/
theorem signum_zero_not_neutral_cex :
    rustSignum 0 ≠ 0 ∧
    (enemy.update_enemy (1 / 60) 0 enemyZero).1.ctrl.horizontal = -1 ∧
    (enemy.update_enemy (1 / 60) 0 enemyZero).1.ctrl.horizontal ≠ 0 ∧
    (boss.move_boss (1 / 60) 8 0 bossZero).2.map (fun g => g.ctrl.horizontal) =
      some 1 := by
  refine ⟨by with_unfolding_all decide, by with_unfolding_all decide,
    by with_unfolding_all decide, by with_unfolding_all decide⟩

/-- C7 amended: the sign of a horizontal offset is computed by Rust's
`f32::signum`, which is total with values in `{1, -1}` (so no NaN is
ever produced), but at an offset of exactly zero it evaluates to `1`,
not a neutral `0`: a zero-offset enemy sets movement intent `-1`
(retreat), and a zero-offset boss attack uses direction `1`. -/
theorem signum_zero_defined_amended :
    (∀ x : ℚ, rustSignum x = 1 ∨ rustSignum x = -1) ∧
    rustSignum 0 = 1 ∧
    (∀ (dt : ℚ) (e : enemy.EnemyState),
      (enemy.update_enemy dt e.pos.x e).1.ctrl.horizontal = -1) ∧
    (boss.move_boss (1 / 60) 8 0 bossZero).2.map (fun g => g.ctrl.horizontal) =
      some 1 := by
  refine ⟨?_, by with_unfolding_all decide, ?_, by with_unfolding_all decide⟩
  · intro x
    unfold rustSignum
    by_cases h : 0 ≤ x
    · exact Or.inl (if_pos h)
    · exact Or.inr (if_neg h)
  · intro dt e
    unfold enemy.update_enemy rustSignum
    norm_num

/-- C10: every garlic bomb the boss spawns has `speed = 0` and initial
velocity `(0, -250)`; a mover with `speed = 0` keeps horizontal
velocity exactly `0` and an unchanged x position through every
movement-integration tick (`apply_movement` preserves `speed`, so this
iterates); enemy-spawned bombs instead get horizontal speed
`|diff_x| / 500 * 1111`, scaling with the player distance. -/
theorem boss_bomb_falls_straight :
    (∀ (dt : ℚ) (cv : ℕ) (px : ℚ) (b : boss.BossState) (g : GarlicSpawn),
      (boss.move_boss dt cv px b).2 = some g →
        g.ctrl.speed = 0 ∧ g.ctrl.velocity = ⟨0, -250⟩) ∧
    (∀ (dt : ℚ) (m : movement.Mover), m.ctrl.speed = 0 →
      (movement.apply_movement dt m).ctrl.velocity.x = 0 ∧
      (movement.apply_movement dt m).pos.x = m.pos.x ∧
      (movement.apply_movement dt m).ctrl.speed = 0) ∧
    (∀ (dt : ℚ) (n : ℕ) (m : movement.Mover), m.ctrl.speed = 0 →
      (movement.apply_movement_iter dt n m).pos.x = m.pos.x) ∧
    (∀ (dt px : ℚ) (e : enemy.EnemyState) (g : GarlicSpawn),
      (enemy.update_enemy dt px e).2 = some g →
        g.ctrl.speed = |px - e.pos.x| / 500 * 1111 ∧ g.ctrl.velocity = ⟨0, 1500⟩) := by
  have hmove : ∀ (dt : ℚ) (m : movement.Mover), m.ctrl.speed = 0 →
      (movement.apply_movement dt m).ctrl.velocity.x = 0 ∧
      (movement.apply_movement dt m).pos.x = m.pos.x ∧
      (movement.apply_movement dt m).ctrl.speed = 0 := by
    intro dt m h
    unfold movement.apply_movement
    simp [h]
  refine ⟨?_, hmove, ?_, ?_⟩
  · intro dt cv px b g h
    unfold boss.move_boss at h
    split at h
    · exact absurd h (by simp)
    · dsimp only at h
      split at h <;>
        · split at h
          · exact absurd h (by simp)
          · split at h
            · dsimp only at h
              injection h with h2
              subst h2
              exact ⟨rfl, rfl⟩
            · exact absurd h (by simp)
  · intro dt n
    induction n with
    | zero => intro m _; rfl
    | succ k ih =>
        intro m h
        have hstep := hmove dt m h
        unfold movement.apply_movement_iter
        rw [ih (movement.apply_movement dt m) hstep.2.2, hstep.2.1]
  · intro dt px e g h
    unfold enemy.update_enemy at h
    dsimp only at h
    split at h
    · exact absurd h (by simp)
    · split at h
      · exact absurd h (by simp)
      · split at h
        · exact absurd h (by simp)
        · split at h
          · dsimp only at h
            injection h with h2
            subst h2
            exact ⟨rfl, rfl⟩
          · exact absurd h (by simp)

/-- Witness for C10: the concrete boss drop, a five-tick integration of
a speed-0 mover, and the concrete enemy lob. -/
theorem boss_bomb_falls_straight_witness :
    ((boss.move_boss (1 / 60) 8 0 bossZero).2 = some bossGarlicDrop ∧
      bossGarlicDrop.ctrl.speed = 0 ∧ bossGarlicDrop.ctrl.velocity = ⟨0, -250⟩) ∧
    (moverSpeed0.ctrl.speed = 0 ∧
      (movement.apply_movement (1 / 60) moverSpeed0).ctrl.velocity.x = 0 ∧
      (movement.apply_movement (1 / 60) moverSpeed0).pos.x = moverSpeed0.pos.x ∧
      (movement.apply_movement (1 / 60) moverSpeed0).ctrl.speed = 0) ∧
    (movement.apply_movement_iter (1 / 60) 5 moverSpeed0).pos.x = moverSpeed0.pos.x ∧
    ((enemy.update_enemy (2 / 10) 400 enemyBand).2 = some enemyGarlicLob ∧
      enemyGarlicLob.ctrl.speed = |(400 : ℚ) - enemyBand.pos.x| / 500 * 1111 ∧
      enemyGarlicLob.ctrl.velocity = ⟨0, 1500⟩) :=
  ⟨⟨by
      norm_num [boss.move_boss, bossZero, bossGarlicDrop, Timer.tick, rustSignum,
        MovementController.default],
      boss_bomb_falls_straight.1 (1 / 60) 8 0 bossZero bossGarlicDrop
        (by
          norm_num [boss.move_boss, bossZero, bossGarlicDrop, Timer.tick, rustSignum,
            MovementController.default])⟩,
    ⟨rfl, boss_bomb_falls_straight.2.1 (1 / 60) moverSpeed0 rfl⟩,
    boss_bomb_falls_straight.2.2.1 (1 / 60) 5 moverSpeed0 rfl,
    ⟨by
      norm_num [enemy.update_enemy, enemyBand, enemyGarlicLob, Timer.tick, rustSignum,
        MovementController.default],
      boss_bomb_falls_straight.2.2.2 (2 / 10) 400 enemyBand enemyGarlicLob
        (by
          norm_num [enemy.update_enemy, enemyBand, enemyGarlicLob, Timer.tick, rustSignum,
            MovementController.default])⟩⟩

/-- C2: for a mover that passes the edge-rejection test against a
platform, terrain resolution first checks the horizontal axis (snap by
`depth.x` and zero `velocity.x` iff `|depth.x| <= 8`), recomputes the
AABB and the intersection depth, then checks the vertical axis on the
recomputed depth (snap by `depth.y` and zero `velocity.y` iff
`|depth.y| <= 24`), sets `grounded` and resets `jump_timer` exactly
when the vertical depth lies in `(0, 24]`, and leaves an axis whose
depth exceeds its threshold uncorrected. -/
theorem terrain_resolution_order (m : movement.Mover) (p : AABB)
    (hpass : ¬ ((movement.moverAABB m).bottom > p.top ∨
      (movement.moverAABB m).left ≥ p.right ∨
      (movement.moverAABB m).right ≤ p.left ∨
      (movement.moverAABB m).top < p.bottom)) :
    let a := movement.moverAABB m
    let d0 := a.get_intersection_depth p
    let d1 := if |d0.x| ≤ 8 then
        (AABB.mk ⟨m.pos.x + d0.x, m.pos.y⟩ a.half_size).get_intersection_depth p
      else d0
    let r := (movement.resolve_platform m p).1
    (movement.resolve_platform m p).2 = true ∧
    r.pos.x = (if |d0.x| ≤ 8 then m.pos.x + d0.x else m.pos.x) ∧
    r.ctrl.velocity.x = (if |d0.x| ≤ 8 then 0 else m.ctrl.velocity.x) ∧
    r.pos.y = (if |d1.y| ≤ 24 then m.pos.y + d1.y else m.pos.y) ∧
    r.ctrl.velocity.y = (if |d1.y| ≤ 24 then 0 else m.ctrl.velocity.y) ∧
    r.ctrl.grounded = (if 0 < d1.y ∧ d1.y ≤ 24 then true else m.ctrl.grounded) ∧
    r.ctrl.jump_timer = (if 0 < d1.y ∧ d1.y ≤ 24 then 0 else m.ctrl.jump_timer) ∧
    r.scale = m.scale ∧ r.pos.z = m.pos.z := by
  dsimp only
  unfold movement.resolve_platform
  rw [if_neg hpass]
  dsimp only
  by_cases hx : |((movement.moverAABB m).get_intersection_depth p).x| ≤ 8
  · rw [if_pos hx, if_pos hx, if_pos hx, if_pos hx]
    set dy := ((AABB.mk ⟨m.pos.x + ((movement.moverAABB m).get_intersection_depth p).x,
        m.pos.y⟩ (movement.moverAABB m).half_size).get_intersection_depth p).y with hdy
    by_cases hy : |dy| ≤ 24
    · rw [if_pos hy, if_pos hy, if_pos hy]
      by_cases hg : 0 < dy
      · have hc : 0 < dy ∧ dy ≤ 24 := ⟨hg, (abs_le.mp hy).2⟩
        simp only [if_pos hc]
        simp
      · have hc : ¬ (0 < dy ∧ dy ≤ 24) := fun hk => hg hk.1
        simp only [if_neg hc]
        simp
    · rw [if_neg hy, if_neg hy, if_neg hy]
      have hc : ¬ (0 < dy ∧ dy ≤ 24) := fun hk => hy (by rw [abs_of_pos hk.1]; exact hk.2)
      simp only [if_neg hc]
      simp
  · rw [if_neg hx, if_neg hx, if_neg hx, if_neg hx]
    set dy := (((movement.moverAABB m)).get_intersection_depth p).y with hdy
    by_cases hy : |dy| ≤ 24
    · rw [if_pos hy, if_pos hy, if_pos hy]
      by_cases hg : 0 < dy
      · have hc : 0 < dy ∧ dy ≤ 24 := ⟨hg, (abs_le.mp hy).2⟩
        simp only [if_pos hc]
        simp
      · have hc : ¬ (0 < dy ∧ dy ≤ 24) := fun hk => hg hk.1
        simp only [if_neg hc]
        simp
    · rw [if_neg hy, if_neg hy, if_neg hy]
      have hc : ¬ (0 < dy ∧ dy ≤ 24) := fun hk => hy (by rw [abs_of_pos hk.1]; exact hk.2)
      simp only [if_neg hc]
      simp

/-- Witness for C2: the landing fixture, whose vertical depth is 2. -/
theorem terrain_resolution_order_witness :
    (¬ ((movement.moverAABB landingMover).bottom > landingPlatform.top ∨
      (movement.moverAABB landingMover).left ≥ landingPlatform.right ∨
      (movement.moverAABB landingMover).right ≤ landingPlatform.left ∨
      (movement.moverAABB landingMover).top < landingPlatform.bottom)) ∧
    (let a := movement.moverAABB landingMover
     let d0 := a.get_intersection_depth landingPlatform
     let d1 := if |d0.x| ≤ 8 then
        (AABB.mk ⟨landingMover.pos.x + d0.x, landingMover.pos.y⟩
          a.half_size).get_intersection_depth landingPlatform
      else d0
     let r := (movement.resolve_platform landingMover landingPlatform).1
     (movement.resolve_platform landingMover landingPlatform).2 = true ∧
     r.pos.x = (if |d0.x| ≤ 8 then landingMover.pos.x + d0.x else landingMover.pos.x) ∧
     r.ctrl.velocity.x = (if |d0.x| ≤ 8 then 0 else landingMover.ctrl.velocity.x) ∧
     r.pos.y = (if |d1.y| ≤ 24 then landingMover.pos.y + d1.y else landingMover.pos.y) ∧
     r.ctrl.velocity.y = (if |d1.y| ≤ 24 then 0 else landingMover.ctrl.velocity.y) ∧
     r.ctrl.grounded = (if 0 < d1.y ∧ d1.y ≤ 24 then true else landingMover.ctrl.grounded) ∧
     r.ctrl.jump_timer = (if 0 < d1.y ∧ d1.y ≤ 24 then 0 else landingMover.ctrl.jump_timer) ∧
     r.scale = landingMover.scale ∧ r.pos.z = landingMover.pos.z) :=
  ⟨by norm_num [movement.moverAABB, landingMover, landingPlatform, AABB.bottom, AABB.top,
      AABB.left, AABB.right],
    terrain_resolution_order landingMover landingPlatform
      (by norm_num [movement.moverAABB, landingMover, landingPlatform, AABB.bottom, AABB.top,
        AABB.left, AABB.right])⟩

/-- `hit_bodies` misses a list every element of which misses the bullet. -/
theorem hit_bodies_none (ba : AABB) :
    ∀ xs : List gun.Body,
      (∀ x ∈ xs, (gun.bodyAABB x).overlapsB ba = false) →
      gun.hit_bodies ba xs = none := by
  intro xs
  induction xs with
  | nil => intro _; rfl
  | cons e es ih =>
      intro h
      unfold gun.hit_bodies
      rw [if_neg (by simp [h e (by simp)]), ih (fun x hx => h x (by simp [hx]))]

/-- Conversely, a list on which `hit_bodies` misses contains no body
overlapping the bullet. -/
theorem hit_bodies_none_miss (ba : AABB) :
    ∀ xs : List gun.Body,
      gun.hit_bodies ba xs = none →
      ∀ x ∈ xs, (gun.bodyAABB x).overlapsB ba = false := by
  intro xs
  induction xs with
  | nil => intro _ x hx; cases hx
  | cons e es ih =>
      intro h x hx
      unfold gun.hit_bodies at h
      by_cases ho : (gun.bodyAABB e).overlapsB ba = true
      · rw [if_pos ho] at h
        cases h
      · rw [if_neg ho] at h
        rcases List.mem_cons.mp hx with hxe | hxes
        · subst hxe
          simpa using ho
        · cases hrec : gun.hit_bodies ba es with
          | none => exact ih hrec x hxes
          | some q => rw [hrec] at h; cases h

/-- `hit_bodies` hits the first overlapping body, damages exactly it by
50, and reports its index and whether it died. -/
theorem hit_bodies_first (ba : AABB) :
    ∀ (pre : List gun.Body) (e : gun.Body) (post : List gun.Body),
      (∀ x ∈ pre, (gun.bodyAABB x).overlapsB ba = false) →
      (gun.bodyAABB e).overlapsB ba = true →
      gun.hit_bodies ba (pre ++ e :: post) =
        some (pre ++ { e with health := e.health - 50 } :: post,
          decide (e.health - 50 ≤ 0), pre.length) := by
  intro pre
  induction pre with
  | nil =>
      intro e post _ he
      unfold gun.hit_bodies
      simp [he]
  | cons q qs ih =>
      intro e post hmiss he
      have hq : (gun.bodyAABB q).overlapsB ba = false := hmiss q (by simp)
      have hrec := ih e post (fun x hx => hmiss x (by simp [hx])) he
      rw [List.cons_append]
      unfold gun.hit_bodies
      rw [if_neg (by simp [hq]), hrec]
      simp

/-- Whatever `hit_bodies` returns, the output list is the input with at
most one element replaced (by its 50-damaged copy). -/
theorem hit_bodies_set (ba : AABB) :
    ∀ (xs ys : List gun.Body) (d : Bool) (i : ℕ),
      gun.hit_bodies ba xs = some (ys, d, i) →
      ∃ e : gun.Body, ys = xs.set i { e with health := e.health - 50 } := by
  intro xs
  induction xs with
  | nil => intro ys d i h; simp [gun.hit_bodies] at h
  | cons e es ih =>
      intro ys d i h
      unfold gun.hit_bodies at h
      by_cases ho : (gun.bodyAABB e).overlapsB ba = true
      · rw [if_pos ho] at h
        simp at h
        refine ⟨e, ?_⟩
        rw [← h.2.2, ← h.1]
        simp
      · rw [if_neg ho] at h
        cases hrec : gun.hit_bodies ba es with
        | none => rw [hrec] at h; simp at h
        | some r =>
            rw [hrec] at h
            obtain ⟨es2, d2, i2⟩ := r
            simp at h
            obtain ⟨e0, he0⟩ := ih es2 d2 i2 hrec
            refine ⟨e0, ?_⟩
            rw [← h.1, ← h.2.2, he0]
            simp

/-- C3: a live bullet tests platforms, then enemies, then the boss, in
that strict order, stopping at the first hit: if any platform overlaps,
the bullet despawns and enemies, bosses and the curse state are
untouched; if no platform overlaps but some enemy does, the boss list
and its despawn command are untouched even if the boss also overlaps,
and the curse value can only have risen by the enemy reward 1 (never
the boss reward 100); and in every case at most one of the enemy list
and the boss list changes, in at most one position. -/
theorem bullet_priority_order (dt : ℚ) (b : gun.BulletEnt) (platforms : List AABB)
    (enemies bosses : List gun.Body) (curse : CurseLevel) :
    let r := gun.handle_collisions dt b platforms enemies bosses curse
    let ba := gun.bulletAABB b
    ((b.bullet.despawn_timer.tick dt).2 = false →
      platforms.any (fun p => ba.overlapsB p) = true →
      r.enemies = enemies ∧ r.bosses = bosses ∧ r.curse = curse ∧
      r.bullet_despawned = true ∧ r.enemy_despawned = none ∧
      r.boss_despawned = none) ∧
    ((b.bullet.despawn_timer.tick dt).2 = false →
      (∀ p ∈ platforms, ba.overlapsB p = false) →
      (∃ x ∈ enemies, (gun.bodyAABB x).overlapsB ba = true) →
      r.bosses = bosses ∧ r.boss_despawned = none ∧
      r.bullet_despawned = true ∧
      (r.curse = curse ∨ r.curse = ⟨curse.value + 1, true⟩)) ∧
    (r.enemies = enemies ∨ r.bosses = bosses) ∧
    (r.enemies = enemies ∨
      ∃ (i : ℕ) (e : gun.Body), r.enemies = enemies.set i e) ∧
    (r.bosses = bosses ∨
      ∃ (i : ℕ) (e : gun.Body), r.bosses = bosses.set i e) := by
  intro r ba
  have hr : r = gun.handle_collisions dt b platforms enemies bosses curse := rfl
  unfold gun.handle_collisions at hr
  dsimp only at hr
  split at hr
  · rw [hr]
    rename_i hexp
    refine ⟨fun h1 h2 => ?_, fun h1 h2 h3 => ?_, Or.inl rfl, Or.inl rfl,
      Or.inl rfl⟩
    · rw [hexp] at h1
      cases h1
    · rw [hexp] at h1
      cases h1
  · split at hr
    · rw [hr]
      rename_i hplat2
      refine ⟨fun _ _ => ⟨rfl, rfl, rfl, rfl, rfl, rfl⟩, fun h1 h2 h3 => ?_,
        Or.inl rfl, Or.inl rfl, Or.inl rfl⟩
      obtain ⟨p, hp, hov⟩ := List.any_eq_true.mp hplat2
      exact absurd hov (by simp [h2 p hp])
    · rename_i htick hplat
      split at hr
      · rename_i es2 died i heq
        obtain ⟨e0, he0⟩ := hit_bodies_set _ enemies es2 died i heq
        rw [hr]
        refine ⟨fun h1 h2 => absurd h2 hplat, fun _ _ _ => ⟨rfl, rfl, rfl, ?_⟩,
          Or.inr rfl, Or.inr ⟨i, _, he0⟩, Or.inl rfl⟩
        split
        · exact Or.inr rfl
        · exact Or.inl rfl
      · rename_i hemiss
        have hnoenemy : ∀ x ∈ enemies, (gun.bodyAABB x).overlapsB ba = false :=
          hit_bodies_none_miss ba enemies hemiss
        split at hr
        · rename_i bs2 died i heq
          obtain ⟨e0, he0⟩ := hit_bodies_set _ bosses bs2 died i heq
          rw [hr]
          refine ⟨fun h1 h2 => absurd h2 hplat, fun h1 h2 h3 => ?_, Or.inl rfl,
            Or.inl rfl, Or.inr ⟨i, _, he0⟩⟩
          obtain ⟨x, hx, hov⟩ := h3
          exact absurd hov (by simp [hnoenemy x hx])
        · rw [hr]
          refine ⟨fun h1 h2 => absurd h2 hplat, fun h1 h2 h3 => ?_, Or.inl rfl,
            Or.inl rfl, Or.inl rfl⟩
          obtain ⟨x, hx, hov⟩ := h3
          exact absurd hov (by simp [hnoenemy x hx])

/-- Witness for C3: a live bullet overlapping both a platform and an
enemy despawns on the platform and the enemy keeps its 50 health; and
with no platform, a bullet overlapping both an enemy and a boss leaves
the boss list and its despawn command untouched. -/
theorem bullet_priority_order_witness :
    ((bulletAtOrigin.bullet.despawn_timer.tick (1 / 10)).2 = false ∧
      ([landingPlatform].any (fun p =>
        (gun.bulletAABB bulletAtOrigin).overlapsB p) = true)) ∧
    ((gun.handle_collisions (1 / 10) bulletAtOrigin [landingPlatform]
        [enemyBody50] [] ⟨0, false⟩).enemies = [enemyBody50] ∧
      (gun.handle_collisions (1 / 10) bulletAtOrigin [landingPlatform]
        [enemyBody50] [] ⟨0, false⟩).bosses = [] ∧
      (gun.handle_collisions (1 / 10) bulletAtOrigin [landingPlatform]
        [enemyBody50] [] ⟨0, false⟩).curse = ⟨0, false⟩ ∧
      (gun.handle_collisions (1 / 10) bulletAtOrigin [landingPlatform]
        [enemyBody50] [] ⟨0, false⟩).bullet_despawned = true ∧
      (gun.handle_collisions (1 / 10) bulletAtOrigin [landingPlatform]
        [enemyBody50] [] ⟨0, false⟩).enemy_despawned = none ∧
      (gun.handle_collisions (1 / 10) bulletAtOrigin [landingPlatform]
        [enemyBody50] [] ⟨0, false⟩).boss_despawned = none) ∧
    ((gun.bodyAABB enemyBody50).overlapsB (gun.bulletAABB bulletAtOrigin) = true ∧
      ((gun.handle_collisions (1 / 10) bulletAtOrigin []
          [enemyBody50] [bossBody40] ⟨0, false⟩).bosses = [bossBody40] ∧
        (gun.handle_collisions (1 / 10) bulletAtOrigin []
          [enemyBody50] [bossBody40] ⟨0, false⟩).boss_despawned = none ∧
        (gun.handle_collisions (1 / 10) bulletAtOrigin []
          [enemyBody50] [bossBody40] ⟨0, false⟩).bullet_despawned = true ∧
        ((gun.handle_collisions (1 / 10) bulletAtOrigin []
            [enemyBody50] [bossBody40] ⟨0, false⟩).curse = ⟨0, false⟩ ∨
          (gun.handle_collisions (1 / 10) bulletAtOrigin []
            [enemyBody50] [bossBody40] ⟨0, false⟩).curse =
              ⟨(⟨0, false⟩ : CurseLevel).value + 1, true⟩))) :=
  ⟨⟨by norm_num [bulletAtOrigin, Timer.tick],
    by
      norm_num [bulletAtOrigin, landingPlatform, gun.bulletAABB, AABB.overlapsB,
        AABB.get_intersection_depth, AABB.left, AABB.right, AABB.top, AABB.bottom,
        minMag]⟩,
    (bullet_priority_order (1 / 10) bulletAtOrigin [landingPlatform]
        [enemyBody50] [] ⟨0, false⟩).1
      (by norm_num [bulletAtOrigin, Timer.tick])
      (by
        norm_num [bulletAtOrigin, landingPlatform, gun.bulletAABB, AABB.overlapsB,
          AABB.get_intersection_depth, AABB.left, AABB.right, AABB.top, AABB.bottom,
          minMag]),
    ⟨by
      norm_num [gun.bodyAABB, gun.bulletAABB, bulletAtOrigin, enemyBody50, AABB.overlapsB,
          AABB.get_intersection_depth, AABB.left, AABB.right, AABB.top, AABB.bottom,
          minMag],
      (bullet_priority_order (1 / 10) bulletAtOrigin []
          [enemyBody50] [bossBody40] ⟨0, false⟩).2.1
        (by norm_num [bulletAtOrigin, Timer.tick])
        (by simp)
        ⟨enemyBody50, by simp, by
          norm_num [gun.bodyAABB, gun.bulletAABB, bulletAtOrigin, enemyBody50, AABB.overlapsB,
          AABB.get_intersection_depth, AABB.left, AABB.right, AABB.top, AABB.bottom,
          minMag]⟩⟩⟩

/-- C4: a bullet that survives its timer, misses every platform, and
overlaps an enemy (the first overlapping one) deals it exactly 50
damage and despawns whether or not the enemy dies; if the resulting
health is `<= 0` the enemy is despawned, the curse value rises by
exactly 1 and the dirty flag is set, else the curse state is untouched;
the analogous boss hit deals 50 and a boss death adds exactly 100 with
the dirty flag set. -/
theorem bullet_damage_effects (dt : ℚ) (b : gun.BulletEnt) (platforms : List AABB)
    (curse : CurseLevel) :
    (∀ (pre : List gun.Body) (e : gun.Body) (post bosses : List gun.Body),
      (b.bullet.despawn_timer.tick dt).2 = false →
      (∀ p ∈ platforms, (gun.bulletAABB b).overlapsB p = false) →
      (∀ x ∈ pre, (gun.bodyAABB x).overlapsB (gun.bulletAABB b) = false) →
      (gun.bodyAABB e).overlapsB (gun.bulletAABB b) = true →
      let r := gun.handle_collisions dt b platforms (pre ++ e :: post) bosses curse
      r.enemies = pre ++ { e with health := e.health - 50 } :: post ∧
      r.bullet_despawned = true ∧
      r.bosses = bosses ∧ r.boss_despawned = none ∧
      (e.health - 50 ≤ 0 →
        r.enemy_despawned = some pre.length ∧ r.curse = ⟨curse.value + 1, true⟩) ∧
      (¬ (e.health - 50 ≤ 0) → r.enemy_despawned = none ∧ r.curse = curse)) ∧
    (∀ (enemies pre : List gun.Body) (e : gun.Body) (post : List gun.Body),
      (b.bullet.despawn_timer.tick dt).2 = false →
      (∀ p ∈ platforms, (gun.bulletAABB b).overlapsB p = false) →
      (∀ x ∈ enemies, (gun.bodyAABB x).overlapsB (gun.bulletAABB b) = false) →
      (∀ x ∈ pre, (gun.bodyAABB x).overlapsB (gun.bulletAABB b) = false) →
      (gun.bodyAABB e).overlapsB (gun.bulletAABB b) = true →
      let r := gun.handle_collisions dt b platforms enemies (pre ++ e :: post) curse
      r.bosses = pre ++ { e with health := e.health - 50 } :: post ∧
      r.bullet_despawned = true ∧
      r.enemies = enemies ∧ r.enemy_despawned = none ∧
      (e.health - 50 ≤ 0 →
        r.boss_despawned = some pre.length ∧ r.curse = ⟨curse.value + 100, true⟩) ∧
      (¬ (e.health - 50 ≤ 0) → r.boss_despawned = none ∧ r.curse = curse)) := by
  constructor
  · intro pre e post bosses ht hplat hpre he r
    have hr : r = gun.handle_collisions dt b platforms (pre ++ e :: post) bosses curse := rfl
    unfold gun.handle_collisions at hr
    dsimp only at hr
    rw [if_neg (by simp [ht])] at hr
    rw [if_neg ?hany] at hr
    case hany =>
      simp only [List.any_eq_true, not_exists, not_and]
      intro p hp
      simp [hplat p hp]
    rw [hit_bodies_first _ pre e post hpre he] at hr
    rw [hr]
    by_cases hd : e.health - 50 ≤ 0
    · have hdec : decide (e.health - 50 ≤ 0) = true := by simp [hd]
      simp only [if_pos hdec]
      simp [hd]
    · have hdec : ¬ (decide (e.health - 50 ≤ 0) = true) := by simp [hd]
      simp only [if_neg hdec]
      simp [hd]
  · intro enemies pre e post ht hplat hen hpre he r
    have hr : r = gun.handle_collisions dt b platforms enemies (pre ++ e :: post) curse := rfl
    unfold gun.handle_collisions at hr
    dsimp only at hr
    rw [if_neg (by simp [ht])] at hr
    rw [if_neg ?hany2] at hr
    case hany2 =>
      simp only [List.any_eq_true, not_exists, not_and]
      intro p hp
      simp [hplat p hp]
    rw [hit_bodies_none _ enemies hen] at hr
    rw [hit_bodies_first _ pre e post hpre he] at hr
    rw [hr]
    by_cases hd : e.health - 50 ≤ 0
    · have hdec : decide (e.health - 50 ≤ 0) = true := by simp [hd]
      simp only [if_pos hdec]
      simp [hd]
    · have hdec : ¬ (decide (e.health - 50 ≤ 0) = true) := by simp [hd]
      simp only [if_neg hdec]
      simp [hd]

/-- Witness for C4: a 50-health enemy dies to one hit (+1, dirty); a
40-health boss dies to one hit (+100, dirty). -/
theorem bullet_damage_effects_witness :
    ((bulletAtOrigin.bullet.despawn_timer.tick (1 / 10)).2 = false ∧
      (gun.bodyAABB enemyBody50).overlapsB (gun.bulletAABB bulletAtOrigin) = true ∧
      (gun.bodyAABB bossBody40).overlapsB (gun.bulletAABB bulletAtOrigin) = true ∧
      (gun.bodyAABB farBody).overlapsB (gun.bulletAABB bulletAtOrigin) = false) ∧
    (let r := gun.handle_collisions (1 / 10) bulletAtOrigin []
        ([farBody] ++ enemyBody50 :: []) [bossBody40] ⟨0, false⟩
     r.enemies = [farBody] ++ { enemyBody50 with health := enemyBody50.health - 50 } :: [] ∧
     r.bullet_despawned = true ∧
     r.bosses = [bossBody40] ∧ r.boss_despawned = none ∧
     (enemyBody50.health - 50 ≤ 0 →
       r.enemy_despawned = some ([farBody] : List gun.Body).length ∧
       r.curse = ⟨(⟨0, false⟩ : CurseLevel).value + 1, true⟩) ∧
     (¬ (enemyBody50.health - 50 ≤ 0) →
       r.enemy_despawned = none ∧ r.curse = ⟨0, false⟩)) ∧
    (let r := gun.handle_collisions (1 / 10) bulletAtOrigin [] [farBody]
        ([] ++ bossBody40 :: []) ⟨0, false⟩
     r.bosses = [] ++ { bossBody40 with health := bossBody40.health - 50 } :: [] ∧
     r.bullet_despawned = true ∧
     r.enemies = [farBody] ∧ r.enemy_despawned = none ∧
     (bossBody40.health - 50 ≤ 0 →
       r.boss_despawned = some ([] : List gun.Body).length ∧
       r.curse = ⟨(⟨0, false⟩ : CurseLevel).value + 100, true⟩) ∧
     (¬ (bossBody40.health - 50 ≤ 0) →
       r.boss_despawned = none ∧ r.curse = ⟨0, false⟩)) :=
  ⟨⟨by norm_num [bulletAtOrigin, Timer.tick],
    by norm_num [gun.bodyAABB, gun.bulletAABB, bulletAtOrigin, enemyBody50, farBody,
        bossBody40, AABB.overlapsB, AABB.get_intersection_depth, AABB.left, AABB.right,
        AABB.top, AABB.bottom, minMag],
    by norm_num [gun.bodyAABB, gun.bulletAABB, bulletAtOrigin, enemyBody50, farBody,
        bossBody40, AABB.overlapsB, AABB.get_intersection_depth, AABB.left, AABB.right,
        AABB.top, AABB.bottom, minMag],
    by norm_num [gun.bodyAABB, gun.bulletAABB, bulletAtOrigin, enemyBody50, farBody,
        bossBody40, AABB.overlapsB, AABB.get_intersection_depth, AABB.left, AABB.right,
        AABB.top, AABB.bottom, minMag]⟩,
   (bullet_damage_effects (1 / 10) bulletAtOrigin [] ⟨0, false⟩).1
     [farBody] enemyBody50 [] [bossBody40]
     (by norm_num [bulletAtOrigin, Timer.tick])
     (by simp)
     (by
       intro x hx
       simp only [List.mem_singleton] at hx
       subst hx
       norm_num [gun.bodyAABB, gun.bulletAABB, bulletAtOrigin, enemyBody50, farBody,
        bossBody40, AABB.overlapsB, AABB.get_intersection_depth, AABB.left, AABB.right,
        AABB.top, AABB.bottom, minMag])
     (by norm_num [gun.bodyAABB, gun.bulletAABB, bulletAtOrigin, enemyBody50, farBody,
        bossBody40, AABB.overlapsB, AABB.get_intersection_depth, AABB.left, AABB.right,
        AABB.top, AABB.bottom, minMag]),
   (bullet_damage_effects (1 / 10) bulletAtOrigin [] ⟨0, false⟩).2
     [farBody] [] bossBody40 []
     (by norm_num [bulletAtOrigin, Timer.tick])
     (by simp)
     (by
       intro x hx
       simp only [List.mem_singleton] at hx
       subst hx
       norm_num [gun.bodyAABB, gun.bulletAABB, bulletAtOrigin, enemyBody50, farBody,
        bossBody40, AABB.overlapsB, AABB.get_intersection_depth, AABB.left, AABB.right,
        AABB.top, AABB.bottom, minMag])
     (by simp)
     (by norm_num [gun.bodyAABB, gun.bulletAABB, bulletAtOrigin, enemyBody50, farBody,
        bossBody40, AABB.overlapsB, AABB.get_intersection_depth, AABB.left, AABB.right,
        AABB.top, AABB.bottom, minMag])⟩

/-- C6 counterexample: a garlic bomb whose AABB overlaps a grounded
mover but that touches no platform survives the tick without exploding:
mover impacts are not detected, only platform impacts are. -/
theorem bomb_ignores_movers_cex :
    (movement.moverAABB bombTouchingMover).overlapsB
      (movement.moverAABB groundedMover) = true ∧
    groundedMover.ctrl.grounded = true ∧
    (movement.handle_collisions bombTouchingMover true []).despawned = false ∧
    (movement.handle_collisions bombTouchingMover true []).explosion = none := by
  refine ⟨?_, rfl, rfl, rfl⟩
  norm_num [movement.moverAABB, bombTouchingMover, groundedMover, AABB.overlapsB,
    AABB.get_intersection_depth, AABB.left, AABB.right, AABB.top, AABB.bottom, minMag]

/-- C6 amended: a mover carrying the Garlic marker that collided with
at least one terrain platform this tick spawns an Explosion at its
(post-correction) position and despawns in the same tick; a bomb that
collided with no platform survives (impacts with movers, grounded or
not, are not detected by this system). -/
theorem bomb_detonates_on_terrain_amended (m : movement.Mover) (garlic : Bool)
    (platforms : List AABB) :
    let r := movement.handle_collisions m garlic platforms
    (garlic = true → r.collided = true →
      r.despawned = true ∧ r.explosion = some r.m.pos) ∧
    (r.collided = false →
      r.despawned = false ∧ r.explosion = none ∧ r.m.ctrl.grounded = false) ∧
    (platforms = [] → r.collided = false) := by
  intro r
  have hr : r = movement.handle_collisions m garlic platforms := rfl
  unfold movement.handle_collisions at hr
  dsimp only at hr
  by_cases hc : (platforms.foldl
      (fun (acc : movement.Mover × Bool) p =>
        let q := movement.resolve_platform acc.1 p
        (q.1, acc.2 || q.2)) (m, false)).2 = true
  · rw [if_pos hc] at hr
    by_cases hg : garlic = true
    · rw [if_pos hg] at hr
      rw [hr]
      refine ⟨fun _ _ => ⟨rfl, rfl⟩, fun hcol => ?_, fun hpl => ?_⟩
      · cases hcol
      · exact absurd hc (by subst hpl; simp)
    · rw [if_neg hg] at hr
      rw [hr]
      refine ⟨fun hgar _ => absurd hgar hg, fun hcol => ?_, fun hpl => ?_⟩
      · cases hcol
      · exact absurd hc (by subst hpl; simp)
  · rw [if_neg hc] at hr
    rw [hr]
    refine ⟨fun _ hcol => ?_, fun _ => ⟨rfl, rfl, rfl⟩, fun _ => rfl⟩
    cases hcol

/-- Witness for C6: the bomb on a platform explodes and despawns; with
no platforms it survives. -/
theorem bomb_detonates_on_terrain_amended_witness :
    ((movement.handle_collisions bombTouchingMover true [landingPlatform]).collided = true ∧
      (movement.handle_collisions bombTouchingMover true [landingPlatform]).despawned = true ∧
      (movement.handle_collisions bombTouchingMover true [landingPlatform]).explosion =
        some (movement.handle_collisions bombTouchingMover true [landingPlatform]).m.pos) ∧
    ((movement.handle_collisions bombTouchingMover true []).collided = false ∧
      (movement.handle_collisions bombTouchingMover true []).despawned = false ∧
      (movement.handle_collisions bombTouchingMover true []).explosion = none ∧
      (movement.handle_collisions bombTouchingMover true []).m.ctrl.grounded = false) := by
  have hcol : (movement.handle_collisions bombTouchingMover true
      [landingPlatform]).collided = true := by
    norm_num [movement.handle_collisions, movement.resolve_platform, movement.moverAABB,
      bombTouchingMover, landingPlatform, AABB.bottom, AABB.top, AABB.left, AABB.right,
      AABB.get_intersection_depth, minMag, MovementController.default]
  have h1 := (bomb_detonates_on_terrain_amended bombTouchingMover true
    [landingPlatform]).1 rfl hcol
  have hempty := (bomb_detonates_on_terrain_amended bombTouchingMover true []).2.2 rfl
  have h2 := (bomb_detonates_on_terrain_amended bombTouchingMover true []).2.1 hempty
  exact ⟨⟨hcol, h1.1, h1.2⟩, ⟨hempty, h2.1, h2.2.1, h2.2.2⟩⟩

end Goose
